import Mathlib

/-!
Verification of the jacket decision engine (`js/decision.js`, final
regional+seasonal version of the `JacketDecision` module).

The JavaScript source is embedded shallowly:
* temperatures, wind speeds and biases are `Int` (the data model declares
  them as integer °F / integer mph);
* latitude/longitude and historical daily mean temperatures are `Rat`
  (JS floating-point values used only through comparisons and averaging);
* the wall clock (`new Date().getHours()`, `Date.now()`) is passed in
  explicitly as an argument;
* the `fetch` of historical data is passed in as an `Except` value, and the
  seasonal-cache state is threaded explicitly.
-/

namespace JacketDecision

/-! ## Constants (`BASE_THRESHOLDS`, `CLIMATE_ZONES`, cache duration) -/

/-- `BASE_THRESHOLDS.NO_JACKET` -/
def NO_JACKET : Int := 75
/-- `BASE_THRESHOLDS.LIGHT_JACKET` -/
def LIGHT_JACKET : Int := 60
/-- `BASE_THRESHOLDS.MEDIUM_JACKET` -/
def MEDIUM_JACKET : Int := 45
/-- `BASE_THRESHOLDS.HEAVY_JACKET` -/
def HEAVY_JACKET : Int := 45
/-- `BASE_THRESHOLDS.TEMP_DROP_SIGNIFICANT` -/
def TEMP_DROP_SIGNIFICANT : Int := 10
/-- `BASE_THRESHOLDS.WIND_CHILL_FACTOR` -/
def WIND_CHILL_FACTOR : Int := 5
/-- `BASE_THRESHOLDS.HIGH_WIND` -/
def HIGH_WIND : Int := 15

/-- `CLIMATE_ZONES.WARM` -/
def ZONE_WARM : Int := -12
/-- `CLIMATE_ZONES.MODERATE` -/
def ZONE_MODERATE : Int := 0
/-- `CLIMATE_ZONES.COLD` -/
def ZONE_COLD : Int := 8

/-- `seasonalCache.CACHE_DURATION = 24 * 60 * 60 * 1000` milliseconds. -/
def CACHE_DURATION : Int := 24 * 60 * 60 * 1000

/-! ## Data model (`WeatherSnapshot` fields read by the decision engine) -/

/-- The fields of `current` that `makeDecision` reads. -/
structure Current where
  temp : Int
  windSpeed : Int
deriving Repr, DecidableEq

/-- The fields of `forecast` that `makeDecision` reads (`forecast.sixHour.temp`). -/
structure Forecast where
  sixHourTemp : Int
deriving Repr, DecidableEq

/-- The `precipitation` block. -/
structure Precipitation where
  chance : Int
  isRaining : Bool
  isSnowing : Bool
deriving Repr, DecidableEq

/-- The fields of `location` that `makeDecision` reads. -/
structure Location where
  name : String
  lat : Rat
  lon : Rat
deriving Repr, DecidableEq

/-- A weather snapshot, input of `makeDecision`. -/
structure WeatherData where
  current : Current
  forecast : Forecast
  precipitation : Precipitation
  location : Location
deriving Repr, DecidableEq

/-! ## `calculateEffectiveTemp` -/

/-- `calculateEffectiveTemp(temp, windSpeed)`: if `windSpeed >= 5 && temp < 70`,
subtract `Math.floor((windSpeed - 5) / 3)`; otherwise return `temp` unchanged. -/
def calculateEffectiveTemp (temp windSpeed : Int) : Int :=
  if windSpeed ≥ WIND_CHILL_FACTOR ∧ temp < 70 then
    temp - (windSpeed - WIND_CHILL_FACTOR).fdiv 3
  else
    temp

/-! ## `getClimateZone` -/

/-- The `warmCities` list. -/
def warmCities : List String :=
  ["los angeles", "miami", "phoenix", "san diego",
   "houston", "tampa", "las vegas", "orlando", "atlanta",
   "san antonio", "dallas", "austin", "jacksonville",
   "mexico city", "sydney", "singapore", "bangkok", "dubai"]

/-- The `coldCities` list. -/
def coldCities : List String :=
  ["chicago", "minneapolis", "toronto", "denver",
   "detroit", "boston", "milwaukee", "cleveland", "buffalo",
   "minnesota", "wisconsin", "montreal", "calgary",
   "london", "paris", "berlin", "moscow", "stockholm"]

/-- `cityName.toLowerCase()` (ASCII lower-casing, the city lists are ASCII),
as a character list. -/
def lowerStr (s : String) : List Char := s.data.map Char.toLower

/-- The separator class of the regex `[,\s]+` used by `split`. -/
def isSep (c : Char) : Bool := c = ',' || c.isWhitespace

/-- `cityLower.split(/[,\s]+/)[0]`: the first element of a regex split is the
text before the first separator, i.e. the longest separator-free prefix. -/
def primaryCityOf (cityLower : List Char) : List Char :=
  cityLower.takeWhile (fun c => !isSep c)

/-- Check whether `needle` occurs as a contiguous run inside `haystack`. -/
def includesList (needle : List Char) : List Char → Bool
  | [] => needle.isEmpty
  | c :: rest => needle.isPrefixOf (c :: rest) || includesList needle rest

/-- The per-entry test inside `warmCities.some(...)` / `coldCities.some(...)`:
`primaryCity === city || cityLower.includes(city + ',')`. -/
def cityEntryMatch (city : String) (cityLower primaryCity : List Char) : Bool :=
  primaryCity == city.data || includesList (city.data ++ [',']) cityLower

/-- `getClimateZone(lat, lon, cityName)`: warm/cold city-list matching with
latitude fallback. -/
def getClimateZone (lat _lon : Rat) (cityName : String) : Int :=
  let cityLower := lowerStr cityName
  let primaryCity := primaryCityOf cityLower
  if warmCities.any (fun city => cityEntryMatch city cityLower primaryCity) then
    ZONE_WARM
  else if coldCities.any (fun city => cityEntryMatch city cityLower primaryCity) then
    ZONE_COLD
  else
    let absLat := |lat|
    if absLat < 30 then ZONE_WARM
    else if absLat > 45 then ZONE_COLD
    else ZONE_MODERATE

/-! ## Seasonal adjustment (`getCacheKey`, `isSeasonalCacheValid`,
`getSeasonalAdjustment`) -/

/-- `x.toFixed(2)` as the integer number of hundredths (round half away from
zero, the rounding of `Number.prototype.toFixed`): with `x = num / den` this
is `round(num * 100 / den)`, computed in integer arithmetic as
`floor((2 * |num * 100| + den) / (2 * den))` with the sign restored. -/
def toFixed2 (x : Rat) : Int :=
  let p := x.num * 100
  let q := (x.den : Int)
  if 0 ≤ p then (2 * p + q) / (2 * q) else -((2 * (-p) + q) / (2 * q))

/-- `getCacheKey(lat, lon)`: coordinates rounded to two decimals.  The JS key
string `lat.toFixed(2) + "," + lon.toFixed(2)` is modelled as the pair of
rounded hundredths. -/
def getCacheKey (lat lon : Rat) : Int × Int :=
  (toFixed2 lat, toFixed2 lon)

/-- One entry of `seasonalCache.data`: `{ adjustment, timestamp }`. -/
structure SeasonalEntry where
  adjustment : Int
  timestamp : Int
deriving Repr, DecidableEq

/-- The state of `seasonalCache.data`, an association list keyed by the
rounded coordinates (lookup finds the most recent write first). -/
abbrev SeasonalCache := List ((Int × Int) × SeasonalEntry)

/-- `isSeasonalCacheValid(lat, lon)` at wall-clock time `now` (ms):
an entry exists and `now - cached.timestamp < CACHE_DURATION`. -/
def isSeasonalCacheValid (cache : SeasonalCache) (now : Int) (lat lon : Rat) : Bool :=
  match cache.lookup (getCacheKey lat lon) with
  | none => false
  | some cached => now - cached.timestamp < CACHE_DURATION

/-- The classification of the 30-day average temperature inside
`getSeasonalAdjustment` (strict comparisons, in source order). -/
def classifyAvgTemp (avgTemp : Rat) : Int :=
  if avgTemp > 75 then -8
  else if avgTemp > 70 then -5
  else if avgTemp < 30 then 8
  else if avgTemp < 40 then 5
  else 0

/-- The outcome of the historical fetch: `Except.error` for any thrown
network/parse error (non-ok response, missing `data.daily` block), or the
raw `daily.temperature_2m_mean` array with `none` for JSON nulls. -/
def FetchOutcome := Except Unit (List (Option Rat))

/-- The result of one `getSeasonalAdjustment` call: the returned bias, the
cache state after the call, and whether the historical fetch was invoked. -/
structure SeasonalResult where
  bias : Int
  cache : SeasonalCache
  fetched : Bool
deriving DecidableEq

/-- `getSeasonalAdjustment(lat, lon)` with the wall clock and the fetch made
explicit.  On a valid cache entry the cached adjustment is returned without
fetching; otherwise the fetch runs: a thrown error yields bias 0 with the
cache untouched, an empty filtered temperature list yields bias 0 with the
cache untouched, and a successful average classifies, caches and returns. -/
def getSeasonalAdjustment (cache : SeasonalCache) (now : Int) (lat lon : Rat)
    (fetch : FetchOutcome) : SeasonalResult :=
  let key := getCacheKey lat lon
  match cache.lookup key with
  | some cached =>
    if now - cached.timestamp < CACHE_DURATION then
      ⟨cached.adjustment, cache, false⟩
    else
      getSeasonalAdjustmentFetch cache key now fetch
  | none => getSeasonalAdjustmentFetch cache key now fetch
where
  /-- The body of the `try` block after the cache miss. -/
  getSeasonalAdjustmentFetch (cache : SeasonalCache) (key : Int × Int) (now : Int)
      (fetch : FetchOutcome) : SeasonalResult :=
    match fetch with
    | .error _ => ⟨0, cache, true⟩
    | .ok raw =>
      let temps := raw.filterMap id
      if temps.isEmpty then ⟨0, cache, true⟩
      else
        let avgTemp := temps.sum / (temps.length : Rat)
        let adjustment := classifyAvgTemp avgTemp
        ⟨adjustment, (key, ⟨adjustment, now⟩) :: cache, true⟩

/-! ## `makeDecision` -/

/-- The `factors` record built by `makeDecision`. -/
structure Factors where
  isVeryCold : Bool
  isCold : Bool
  isCool : Bool
  isWarm : Bool
  significantDrop : Bool
  isRainy : Bool
  isWindy : Bool
  isEvening : Bool
  isMorning : Bool
  willGetColder : Bool
deriving Repr, DecidableEq

/-- The `adjustments` block of the result. -/
structure Adjustments where
  climate : Int
  seasonal : Int
  total : Int
deriving Repr, DecidableEq

/-- The result object of `makeDecision`. -/
structure DecisionResult where
  answer : String
  reasoning : String
  jacketType : Option String
  rainAdvice : Option String
  factors : Factors
  adjustments : Adjustments
deriving Repr, DecidableEq

/-- `buildTemperatureReasoning(current, forecast, factors, type,
climateAdjustment, seasonalAdjustment)`. -/
def buildTemperatureReasoning (current : Current) (forecast : Forecast)
    (factors : Factors) (type : String)
    (climateAdjustment seasonalAdjustment : Int) : String :=
  let base : List String :=
    if type = "very-cold" then
      ["It's " ++ toString current.temp ++ "°F"]
      ++ (if factors.isWindy then ["and windy (" ++ toString current.windSpeed ++ " mph)"] else [])
      ++ (if factors.willGetColder then ["dropping to " ++ toString forecast.sixHourTemp ++ "°F later"] else [])
    else if type = "cold" then
      ["It's " ++ toString current.temp ++ "°F"]
      ++ (if factors.isWindy then ["and breezy (" ++ toString current.windSpeed ++ " mph)"] else [])
      ++ (if factors.willGetColder then ["dropping to " ++ toString forecast.sixHourTemp ++ "°F later"] else [])
    else if type = "cool" then
      ["It's a cool " ++ toString current.temp ++ "°F"]
      ++ (if factors.isWindy then ["with some wind (" ++ toString current.windSpeed ++ " mph)"] else [])
      ++ (if factors.willGetColder then ["getting cooler later"] else [])
    else if type = "warm" then
      ["It's " ++ toString current.temp ++ "°F and comfortable"]
      ++ (if ¬factors.willGetColder then ["staying warm through the day"] else [])
    else []
  let withRegional :=
    if climateAdjustment = ZONE_WARM ∧ type ≠ "warm" then
      base ++ ["but locals in warm climates tend to bundle up at this temperature"]
    else if climateAdjustment = ZONE_COLD ∧ type = "warm" then
      base ++ ["and people here are used to much colder weather"]
    else base
  let withSeasonal :=
    if |seasonalAdjustment| > 5 then
      withRegional ++
        ["It's been " ++ (if seasonalAdjustment > 0 then "very cold" else "very warm")
          ++ " lately, so this feels "
          ++ (if seasonalAdjustment > 0 then "warmer" else "cooler") ++ " than usual"]
    else withRegional
  String.intercalate ", " withSeasonal

/-- `makeDecision(weatherData)` with the wall-clock hour and the awaited
seasonal adjustment passed in explicitly. -/
def makeDecision (hour seasonalAdjustment : Int) (w : WeatherData) : DecisionResult :=
  let climateAdjustment :=
    getClimateZone w.location.lat w.location.lon w.location.name
  let totalAdjustment := climateAdjustment + seasonalAdjustment
  let effectiveTemp := calculateEffectiveTemp w.current.temp w.current.windSpeed
  let isEvening : Bool := hour ≥ 18 || hour < 6
  let isMorning : Bool := hour ≥ 6 && hour < 12
  let tempDrop := w.current.temp - w.forecast.sixHourTemp
  let factors : Factors :=
    { isVeryCold := effectiveTemp < HEAVY_JACKET + totalAdjustment
      isCold := effectiveTemp < MEDIUM_JACKET + totalAdjustment
      isCool := effectiveTemp < LIGHT_JACKET + totalAdjustment
      isWarm := effectiveTemp ≥ NO_JACKET + totalAdjustment
      significantDrop := tempDrop ≥ TEMP_DROP_SIGNIFICANT
      isRainy := w.precipitation.isRaining || w.precipitation.chance > 50
      isWindy := w.current.windSpeed ≥ HIGH_WIND
      isEvening := isEvening
      isMorning := isMorning
      willGetColder := w.forecast.sixHourTemp < w.current.temp - 5 }
  let branch : String × Option String × String :=
    if factors.isVeryCold then
      ("YES", some "Heavy jacket or coat",
        buildTemperatureReasoning w.current w.forecast factors "very-cold"
          climateAdjustment seasonalAdjustment)
    else if factors.isCold then
      ("YES", some "Medium jacket",
        buildTemperatureReasoning w.current w.forecast factors "cold"
          climateAdjustment seasonalAdjustment)
    else if factors.isCool then
      ("YES", some "Light jacket or sweater",
        buildTemperatureReasoning w.current w.forecast factors "cool"
          climateAdjustment seasonalAdjustment)
    else
      ("NO", none,
        buildTemperatureReasoning w.current w.forecast factors "warm"
          climateAdjustment seasonalAdjustment)
  let rainAdvice : Option String :=
    if factors.isRainy then
      if factors.isVeryCold || factors.isCold then
        some "Rain expected - consider waterproof jacket"
      else if factors.isCool then
        some "Rain expected - light rain gear recommended"
      else
        some "Rain expected - no jacket needed for warmth, but consider rain gear"
    else none
  { answer := branch.1
    reasoning := branch.2.2
    jacketType := branch.2.1
    rainAdvice := rainAdvice
    factors := factors
    adjustments :=
      { climate := climateAdjustment
        seasonal := seasonalAdjustment
        total := totalAdjustment } }

/-- `toCelsius(fahrenheit) = Math.round((fahrenheit - 32) * 5 / 9)`
(`Math.round` rounds half toward positive infinity:
`round(a / b) = floor((2 * a + b) / (2 * b))` for `b > 0`). -/
def toCelsius (fahrenheit : Int) : Int :=
  (2 * ((fahrenheit - 32) * 5) + 9).fdiv 18

/-- `toFahrenheit(celsius) = Math.round(celsius * 9 / 5 + 32)`. -/
def toFahrenheit (celsius : Int) : Int :=
  (2 * (celsius * 9 + 160) + 5).fdiv 10

/-! ## Spec-side definitions, used to state the claims -/

/-- The answer / jacket-type selection as the spec words it: strict priority
over the effective temperature against the shifted heavy, medium and light
boundaries (base 45 / 45 / 60, shifted by the total adjustment), `NO` with no
jacket type otherwise. -/
def claimBranch (effTemp total : Int) : String × Option String :=
  if effTemp < HEAVY_JACKET + total then ("YES", some "Heavy jacket or coat")
  else if effTemp < MEDIUM_JACKET + total then ("YES", some "Medium jacket")
  else if effTemp < LIGHT_JACKET + total then ("YES", some "Light jacket or sweater")
  else ("NO", none)

/-- Jacket weights ordered from no jacket (0) to heaviest (3). -/
def jacketWeight : Option String → Nat
  | none => 0
  | some s =>
    if s = "Heavy jacket or coat" then 3
    else if s = "Medium jacket" then 2
    else if s = "Light jacket or sweater" then 1
    else 0

/-- Spec-side matcher helper, following the claim wording: a city entry occurs
as a whole token immediately followed by a comma when the occurrence follows a
separator character and the entry is immediately followed by a comma. -/
def tokenCommaAfterSep (city : List Char) : List Char → Bool
  | [] => false
  | c :: rest => (isSep c && (city ++ [',']).isPrefixOf rest) || tokenCommaAfterSep city rest

/-- Spec-side matcher, following the claim wording: the entry equals the first
comma/whitespace-separated token of the lower-cased name, or the entry occurs
as a whole token (at the start of the string or after a separator) immediately
followed by a comma. -/
def claimCityMatch (city : String) (name : String) : Bool :=
  let low := lowerStr name
  primaryCityOf low == city.data ||
    (city.data ++ [',']).isPrefixOf low ||
    tokenCommaAfterSep city.data low

/-- A concrete snapshot used to instantiate theorems with hypotheses:
50 °F, calm, steady forecast, no precipitation, unlisted city at latitude 40. -/
def sampleSnapshot : WeatherData :=
  { current := { temp := 50, windSpeed := 0 }
    forecast := { sixHourTemp := 50 }
    precipitation := { chance := 0, isRaining := false, isSnowing := false }
    location := { name := "Plainfield", lat := 40, lon := -70 } }

/-! ## Bridge lemmas between `makeDecision` and the spec-side selection -/

/-- The answer and jacket type of `makeDecision` are exactly the spec-side
priority selection applied to the effective temperature and the total
adjustment. -/
theorem makeDecision_branch (hour seas : Int) (w : WeatherData) :
    ((makeDecision hour seas w).answer, (makeDecision hour seas w).jacketType) =
      claimBranch (calculateEffectiveTemp w.current.temp w.current.windSpeed)
        (getClimateZone w.location.lat w.location.lon w.location.name + seas) := by
  simp only [makeDecision, claimBranch]
  split_ifs <;> simp_all

/-- The rain advisory of `makeDecision`, read off from its own factors. -/
theorem makeDecision_rainAdvice_eq (hour seas : Int) (w : WeatherData) :
    (makeDecision hour seas w).rainAdvice =
      (if (makeDecision hour seas w).factors.isRainy then
         if (makeDecision hour seas w).factors.isVeryCold ||
            (makeDecision hour seas w).factors.isCold then
           some "Rain expected - consider waterproof jacket"
         else if (makeDecision hour seas w).factors.isCool then
           some "Rain expected - light rain gear recommended"
         else some "Rain expected - no jacket needed for warmth, but consider rain gear"
       else none) := rfl

/-- The `isRainy` factor of `makeDecision`. -/
theorem makeDecision_isRainy (hour seas : Int) (w : WeatherData) :
    (makeDecision hour seas w).factors.isRainy =
      (w.precipitation.isRaining || decide (w.precipitation.chance > 50)) := rfl

/-- Lowering the raw temperature never raises the effective temperature. -/
theorem calculateEffectiveTemp_mono (t1 t2 ws : Int) (h : t2 ≤ t1) :
    calculateEffectiveTemp t2 ws ≤ calculateEffectiveTemp t1 ws := by
  have he : ws < WIND_CHILL_FACTOR ∨ 0 ≤ (ws - WIND_CHILL_FACTOR).fdiv 3 := by
    by_cases hw : ws < WIND_CHILL_FACTOR
    · exact Or.inl hw
    · exact Or.inr (Int.fdiv_nonneg (by omega) (by norm_num))
  unfold calculateEffectiveTemp
  unfold WIND_CHILL_FACTOR at *
  generalize (ws - 5).fdiv 3 = e at *
  split_ifs <;> omega

/-- Lowering the effective temperature preserves a `YES` answer and never
lightens the selected jacket. -/
theorem claimBranch_mono (e1 e2 total : Int) (h : e2 ≤ e1) :
    ((claimBranch e1 total).1 = "YES" → (claimBranch e2 total).1 = "YES") ∧
    jacketWeight (claimBranch e1 total).2 ≤ jacketWeight (claimBranch e2 total).2 := by
  unfold claimBranch jacketWeight HEAVY_JACKET MEDIUM_JACKET LIGHT_JACKET
  split_ifs <;> simp_all <;> omega

/-- A call whose cache check fails proceeds to the fetch path. -/
theorem getSeasonalAdjustment_of_invalid (cache : SeasonalCache) (now : Int)
    (lat lon : Rat) (f : FetchOutcome)
    (h : isSeasonalCacheValid cache now lat lon = false) :
    getSeasonalAdjustment cache now lat lon f =
      getSeasonalAdjustment.getSeasonalAdjustmentFetch cache (getCacheKey lat lon) now f := by
  unfold isSeasonalCacheValid at h
  unfold getSeasonalAdjustment
  dsimp only
  cases hl : cache.lookup (getCacheKey lat lon) with
  | none => rfl
  | some e =>
    rw [hl] at h
    have h2 : decide (now - e.timestamp < CACHE_DURATION) = false := h
    exact if_neg (of_decide_eq_false h2)

/-- A thrown fetch error yields bias 0 and leaves the cache unchanged. -/
theorem fetch_error_result (cache : SeasonalCache) (key : Int × Int) (now : Int) (e : Unit) :
    getSeasonalAdjustment.getSeasonalAdjustmentFetch cache key now (.error e) =
      ⟨0, cache, true⟩ := rfl

/-- The fetch path always reports that the fetch was invoked. -/
theorem fetch_fetched_true (cache : SeasonalCache) (key : Int × Int) (now : Int)
    (f : FetchOutcome) :
    (getSeasonalAdjustment.getSeasonalAdjustmentFetch cache key now f).fetched = true := by
  cases f with
  | error e => rfl
  | ok raw =>
    unfold getSeasonalAdjustment.getSeasonalAdjustmentFetch
    dsimp only
    split_ifs <;> rfl

/-! ## Claim theorems -/

/-- C1: for every snapshot, `makeDecision` selects the answer and jacket type
by strict priority over the effective temperature against the base thresholds
75/60/45/45 shifted uniformly by `climateBias + seasonalBias` (heavy and
medium boundaries 45, light 60, none 75), answering YES with
"Heavy jacket or coat" / "Medium jacket" / "Light jacket or sweater" in that
priority order and NO with no jacket type otherwise; the auxiliary constants
drop = 10 and highWind = 15 enter the factors unshifted. -/
theorem decide_priority_order (hour seas : Int) (w : WeatherData) :
    ((makeDecision hour seas w).answer, (makeDecision hour seas w).jacketType) =
      claimBranch (calculateEffectiveTemp w.current.temp w.current.windSpeed)
        (getClimateZone w.location.lat w.location.lon w.location.name + seas) ∧
    (makeDecision hour seas w).factors.significantDrop =
      decide (w.current.temp - w.forecast.sixHourTemp ≥ TEMP_DROP_SIGNIFICANT) ∧
    (makeDecision hour seas w).factors.isWindy =
      decide (w.current.windSpeed ≥ HIGH_WIND) ∧
    (makeDecision hour seas w).adjustments.total =
      getClimateZone w.location.lat w.location.lon w.location.name + seas :=
  ⟨makeDecision_branch hour seas w, rfl, rfl, rfl⟩

/-- C2: for every input snapshot, the answer is YES or NO (never anything
else), and the jacket type is non-null exactly when the answer is YES. -/
theorem decide_answer_binary_jacket_iff_yes (hour seas : Int) (w : WeatherData) :
    ((makeDecision hour seas w).answer = "YES" ∨ (makeDecision hour seas w).answer = "NO") ∧
    ((makeDecision hour seas w).jacketType ≠ none ↔
      (makeDecision hour seas w).answer = "YES") := by
  have h := makeDecision_branch hour seas w
  rw [Prod.mk.injEq] at h
  obtain ⟨h1, h2⟩ := h
  unfold claimBranch at h1 h2
  split_ifs at h1 h2 <;> simp_all

/-- C3: `calculateEffectiveTemp t w` is `t - floor((w - 5) / 3)` when `w ≥ 5`
and `t < 70`, and `t` unchanged otherwise; in particular it maps
(72, 20) to 72, (65, 20) to 60 and (65, 4) to 65. -/
theorem effectiveTemp_wind_chill_formula (t ws : Int) :
    calculateEffectiveTemp t ws =
      (if ws ≥ 5 ∧ t < 70 then t - (ws - 5).fdiv 3 else t) ∧
    calculateEffectiveTemp 72 20 = 72 ∧
    calculateEffectiveTemp 65 20 = 60 ∧
    calculateEffectiveTemp 65 4 = 65 :=
  ⟨rfl, by decide, by decide, by decide⟩

/-- C4: lowering `current.temp` with everything else fixed preserves a YES
answer and never lightens the recommended jacket type. -/
theorem decide_monotone_in_temp (hour seas t2 : Int) (w : WeatherData)
    (h : t2 < w.current.temp) :
    ((makeDecision hour seas w).answer = "YES" →
      (makeDecision hour seas
        { w with current := { w.current with temp := t2 } }).answer = "YES") ∧
    jacketWeight (makeDecision hour seas w).jacketType ≤
      jacketWeight (makeDecision hour seas
        { w with current := { w.current with temp := t2 } }).jacketType := by
  have hb1 := makeDecision_branch hour seas w
  have hb2 :
      ((makeDecision hour seas { w with current := { w.current with temp := t2 } }).answer,
       (makeDecision hour seas { w with current := { w.current with temp := t2 } }).jacketType) =
        claimBranch (calculateEffectiveTemp t2 w.current.windSpeed)
          (getClimateZone w.location.lat w.location.lon w.location.name + seas) :=
    makeDecision_branch hour seas { w with current := { w.current with temp := t2 } }
  have hmono := calculateEffectiveTemp_mono w.current.temp t2 w.current.windSpeed (le_of_lt h)
  have hcb := claimBranch_mono (calculateEffectiveTemp w.current.temp w.current.windSpeed)
    (calculateEffectiveTemp t2 w.current.windSpeed)
    (getClimateZone w.location.lat w.location.lon w.location.name + seas) hmono
  rw [Prod.mk.injEq] at hb1 hb2
  obtain ⟨ha1, hj1⟩ := hb1
  obtain ⟨ha2, hj2⟩ := hb2
  rw [ha1, hj1, ha2, hj2]
  exact hcb

/-- C4 witness: at the sample snapshot (50 °F) and lowered temperature 40 °F,
the monotonicity conclusion holds. -/
theorem decide_monotone_in_temp_witness :
    (40 : Int) < sampleSnapshot.current.temp ∧
    (((makeDecision 12 0 sampleSnapshot).answer = "YES" →
      (makeDecision 12 0
        { sampleSnapshot with
          current := { sampleSnapshot.current with temp := 40 } }).answer = "YES") ∧
    jacketWeight (makeDecision 12 0 sampleSnapshot).jacketType ≤
      jacketWeight (makeDecision 12 0
        { sampleSnapshot with
          current := { sampleSnapshot.current with temp := 40 } }).jacketType) :=
  ⟨by decide, decide_monotone_in_temp 12 0 40 sampleSnapshot (by decide)⟩

/-- C5 counterexample: the resolver classifies "Eastboston, MA" as a cold-zone
city because `"boston,"` occurs as a substring, although "boston" is neither
the first token of the name nor a whole token followed by a comma (it is a
proper substring of the longer word "eastboston"); at the same latitude the
name without the comma falls back to the moderate zone. -/
theorem climateZone_whole_token_counterexample :
    getClimateZone 40 (-70) "Eastboston, MA" = ZONE_COLD ∧
    "boston" ∈ coldCities ∧
    claimCityMatch "boston" "Eastboston, MA" = false ∧
    (warmCities ++ coldCities).all
      (fun city => !claimCityMatch city "Eastboston, MA") = true ∧
    getClimateZone 40 (-70) "Eastboston" = ZONE_MODERATE :=
  ⟨by decide, by decide, by decide, by decide, by decide⟩

/-- C5 amended: the resolver matches a list entry exactly when the entry
equals the first comma/whitespace-separated token of the lower-cased name, or
when the entry immediately followed by a comma occurs anywhere as a substring
of the lower-cased name — possibly inside a longer word; a name starting with
"Bostonia" still does not match "boston" (no comma after the substring), while
"Eastboston, MA" does. -/
theorem climateZone_matching_amended (lat lon : Rat) (name : String) :
    (getClimateZone lat lon name =
      (if warmCities.any (fun city =>
          cityEntryMatch city (lowerStr name) (primaryCityOf (lowerStr name))) then ZONE_WARM
       else if coldCities.any (fun city =>
          cityEntryMatch city (lowerStr name) (primaryCityOf (lowerStr name))) then ZONE_COLD
       else if |lat| < 30 then ZONE_WARM
       else if |lat| > 45 then ZONE_COLD
       else ZONE_MODERATE)) ∧
    (∀ (city : String) (cl pc : List Char),
      cityEntryMatch city cl pc =
        (pc == city.data || includesList (city.data ++ [',']) cl)) ∧
    cityEntryMatch "boston" (lowerStr "Bostonia, CA")
      (primaryCityOf (lowerStr "Bostonia, CA")) = false ∧
    cityEntryMatch "boston" (lowerStr "Eastboston, MA")
      (primaryCityOf (lowerStr "Eastboston, MA")) = true :=
  ⟨rfl, fun city cl pc => rfl, by decide, by decide⟩

/-- C6: on a cache miss with a successful fetch, the seasonal bias drops the
null daily entries, and classifies the average of the remaining entries as
-8 above 75, -5 above 70, +8 below 30, +5 below 40 and 0 otherwise (strict
comparisons, in that priority order); with no valid entries the bias is 0. -/
theorem seasonal_bias_classification (now : Int) (lat lon : Rat)
    (raw : List (Option Rat)) :
    (getSeasonalAdjustment [] now lat lon (.ok raw)).bias =
      (let valid := raw.filterMap id
       if valid.isEmpty then 0
       else
         let avgTemp := valid.sum / (valid.length : Rat)
         if avgTemp > 75 then -8
         else if avgTemp > 70 then -5
         else if avgTemp < 30 then 8
         else if avgTemp < 40 then 5
         else 0) := by
  unfold getSeasonalAdjustment getSeasonalAdjustment.getSeasonalAdjustmentFetch
  simp only [List.lookup, classifyAvgTemp]
  split_ifs <;> rfl

/-- C7: when the cache check fails, a failed fetch or one with zero valid
daily entries returns bias 0 and leaves the cache unchanged; consequently any
later call against that same unchanged cache whose check also fails invokes
the fetch again. -/
theorem seasonal_failure_returns_zero_no_cache (cache : SeasonalCache) (now : Int)
    (lat lon : Rat) (hmiss : isSeasonalCacheValid cache now lat lon = false) :
    (∀ e : Unit, getSeasonalAdjustment cache now lat lon (.error e) = ⟨0, cache, true⟩) ∧
    (∀ raw : List (Option Rat), raw.filterMap id = [] →
      getSeasonalAdjustment cache now lat lon (.ok raw) = ⟨0, cache, true⟩) ∧
    (∀ (f : FetchOutcome) (now2 : Int), isSeasonalCacheValid cache now2 lat lon = false →
      (getSeasonalAdjustment cache now2 lat lon f).fetched = true) := by
  refine ⟨?_, ?_, ?_⟩
  · intro e
    rw [getSeasonalAdjustment_of_invalid cache now lat lon _ hmiss]
    exact fetch_error_result cache _ now e
  · intro raw hraw
    rw [getSeasonalAdjustment_of_invalid cache now lat lon _ hmiss]
    unfold getSeasonalAdjustment.getSeasonalAdjustmentFetch
    dsimp only
    rw [hraw]
    rfl
  · intro f now2 hmiss2
    rw [getSeasonalAdjustment_of_invalid cache now2 lat lon _ hmiss2]
    exact fetch_fetched_true cache _ now2 f

/-- C7 witness: on the empty cache a failed fetch returns bias 0, caches
nothing, and a repeat call fetches again. -/
theorem seasonal_failure_returns_zero_no_cache_witness :
    isSeasonalCacheValid [] 0 40 (-70) = false ∧
    ((∀ e : Unit, getSeasonalAdjustment [] 0 40 (-70) (.error e) = ⟨0, [], true⟩) ∧
     (∀ raw : List (Option Rat), raw.filterMap id = [] →
       getSeasonalAdjustment [] 0 40 (-70) (.ok raw) = ⟨0, [], true⟩) ∧
     (∀ (f : FetchOutcome) (now2 : Int), isSeasonalCacheValid [] now2 40 (-70) = false →
       (getSeasonalAdjustment [] now2 40 (-70) f).fetched = true)) :=
  ⟨by decide, seasonal_failure_returns_zero_no_cache [] 0 40 (-70) (by decide)⟩

/-- C8: with a cached entry under the rounded-coordinate key, a call strictly
inside the 24-hour window returns the cached bias without fetching, and a call
at or past 24 hours invokes the fetch again. -/
theorem seasonal_cache_fresh_hit_stale_refetch (cache : SeasonalCache) (now : Int)
    (lat lon : Rat) (e : SeasonalEntry) (f : FetchOutcome)
    (hl : cache.lookup (getCacheKey lat lon) = some e) :
    (now - e.timestamp < CACHE_DURATION →
      getSeasonalAdjustment cache now lat lon f = ⟨e.adjustment, cache, false⟩) ∧
    (now - e.timestamp ≥ CACHE_DURATION →
      (getSeasonalAdjustment cache now lat lon f).fetched = true) := by
  constructor
  · intro hfresh
    unfold getSeasonalAdjustment
    dsimp only
    rw [hl]
    simp only [if_pos hfresh]
  · intro hstale
    unfold getSeasonalAdjustment
    dsimp only
    rw [hl]
    simp only [if_neg (by omega : ¬ now - e.timestamp < CACHE_DURATION)]
    exact fetch_fetched_true cache _ now f

/-- C8 witness: a one-entry cache at the rounded key for (40, -70) is served
from cache inside the window and refetched at or past it. -/
theorem seasonal_cache_fresh_hit_stale_refetch_witness :
    ([((4000, -7000), (⟨5, 0⟩ : SeasonalEntry))] : SeasonalCache).lookup
      (getCacheKey 40 (-70)) = some ⟨5, 0⟩ ∧
    (((1 : Int) - (⟨5, 0⟩ : SeasonalEntry).timestamp < CACHE_DURATION →
      getSeasonalAdjustment [((4000, -7000), ⟨5, 0⟩)] 1 40 (-70) (.error ()) =
        ⟨5, [((4000, -7000), ⟨5, 0⟩)], false⟩) ∧
    ((1 : Int) - (⟨5, 0⟩ : SeasonalEntry).timestamp ≥ CACHE_DURATION →
      (getSeasonalAdjustment [((4000, -7000), ⟨5, 0⟩)] 1 40 (-70) (.error ())).fetched =
        true)) :=
  ⟨by decide,
    seasonal_cache_fresh_hit_stale_refetch [((4000, -7000), ⟨5, 0⟩)] 1 40 (-70) ⟨5, 0⟩
      (.error ()) (by decide)⟩

/-- C9: the rain advisory never affects the recommendation — the advisory is
non-null exactly when it is raining or the chance exceeds 50, varying only the
precipitation block leaves answer and jacket type unchanged, and when rainy
the advisory text is the waterproof suggestion when very-cold or cold, the
light-rain-gear text when cool, and the rain-gear-only note otherwise. -/
theorem rain_advisory_independent (hour seas : Int) (w : WeatherData) :
    ((makeDecision hour seas w).rainAdvice ≠ none ↔
      (w.precipitation.isRaining = true ∨ w.precipitation.chance > 50)) ∧
    (∀ p : Precipitation,
      (makeDecision hour seas { w with precipitation := p }).answer =
        (makeDecision hour seas w).answer ∧
      (makeDecision hour seas { w with precipitation := p }).jacketType =
        (makeDecision hour seas w).jacketType) ∧
    ((makeDecision hour seas w).rainAdvice =
      if (makeDecision hour seas w).factors.isRainy then
        if (makeDecision hour seas w).factors.isVeryCold ||
           (makeDecision hour seas w).factors.isCold then
          some "Rain expected - consider waterproof jacket"
        else if (makeDecision hour seas w).factors.isCool then
          some "Rain expected - light rain gear recommended"
        else some "Rain expected - no jacket needed for warmth, but consider rain gear"
      else none) := by
  refine ⟨?_, ?_, makeDecision_rainAdvice_eq hour seas w⟩
  · rw [makeDecision_rainAdvice_eq hour seas w, makeDecision_isRainy hour seas w]
    by_cases hr : (w.precipitation.isRaining || decide (w.precipitation.chance > 50)) = true
    · rw [if_pos hr]
      simp only [Bool.or_eq_true, decide_eq_true_eq] at hr
      constructor
      · intro _; exact hr
      · intro _; split_ifs <;> simp
    · rw [if_neg hr]
      simp only [Bool.or_eq_true, decide_eq_true_eq] at hr
      push_neg at hr
      constructor
      · intro hx; exact absurd rfl hx
      · intro hx; rcases hx with hx | hx
        · exact absurd hx hr.1
        · omega
  · intro p
    have hb1 := makeDecision_branch hour seas w
    have hb2 :
        ((makeDecision hour seas { w with precipitation := p }).answer,
         (makeDecision hour seas { w with precipitation := p }).jacketType) =
          claimBranch (calculateEffectiveTemp w.current.temp w.current.windSpeed)
            (getClimateZone w.location.lat w.location.lon w.location.name + seas) :=
      makeDecision_branch hour seas { w with precipitation := p }
    rw [Prod.mk.injEq] at hb1 hb2
    exact ⟨hb2.1.trans hb1.1.symm, hb2.2.trans hb1.2.symm⟩

/-- C10: the "Medium jacket" branch is unreachable — the heavy and medium base
thresholds are both 45 and shift together, so the jacket type is always
"Heavy jacket or coat", "Light jacket or sweater", or absent. -/
theorem medium_jacket_unreachable (hour seas : Int) (w : WeatherData) :
    (makeDecision hour seas w).jacketType ≠ some "Medium jacket" ∧
    ((makeDecision hour seas w).jacketType = some "Heavy jacket or coat" ∨
     (makeDecision hour seas w).jacketType = some "Light jacket or sweater" ∨
     (makeDecision hour seas w).jacketType = none) := by
  have h := makeDecision_branch hour seas w
  rw [Prod.mk.injEq] at h
  obtain ⟨h1, h2⟩ := h
  unfold claimBranch HEAVY_JACKET MEDIUM_JACKET LIGHT_JACKET at h2
  split_ifs at h2 <;> simp_all

end JacketDecision
